import Mathlib

/-!
Shallow embedding of the entity/component core of `examples/ecs_complete`
(pevi editor repository): spatial components, the Transform / Culling /
Picking / Input / HotReload systems of `systems/core_systems.c`, the
observers of `systems/observers.c`, and the file ingestion of
`systems/file_loader.c`.  C `float` values are embedded as `ℚ`; the raylib
math helpers used by the code (`raymath.h`) are embedded entrywise from
their library definitions.  Char buffers (`char[256]`, `char[512]`) are
embedded as `List Char` with explicit truncation.
-/

namespace PeviECS

/-- raylib `Vector3`. -/
structure Vector3 where
  x : ℚ
  y : ℚ
  z : ℚ
  deriving DecidableEq, Repr

/-- raylib `Vector2`. -/
structure Vector2 where
  x : ℚ
  y : ℚ
  deriving DecidableEq, Repr

/-- Component `Rotation` of `components/spatial.h`: a quaternion `x y z w`. -/
structure Rotation where
  x : ℚ
  y : ℚ
  z : ℚ
  w : ℚ
  deriving DecidableEq, Repr

/-- raylib `Matrix` (4x4).  Field `m(4*c+r)` is the entry at row `r`,
column `c`; the fields are listed in the declaration order of raylib's
header (first row `m0 m4 m8 m12`, etc.). -/
structure Matrix where
  m0 : ℚ
  m4 : ℚ
  m8 : ℚ
  m12 : ℚ
  m1 : ℚ
  m5 : ℚ
  m9 : ℚ
  m13 : ℚ
  m2 : ℚ
  m6 : ℚ
  m10 : ℚ
  m14 : ℚ
  m3 : ℚ
  m7 : ℚ
  m11 : ℚ
  m15 : ℚ
  deriving DecidableEq, Repr

/-- The all-zero matrix: the value of a C `Matrix` field of a
zero-initialized compound literal such as `(Transform){.needs_update = true}`. -/
def matZero : Matrix :=
  { m0 := 0, m4 := 0, m8 := 0, m12 := 0
    m1 := 0, m5 := 0, m9 := 0, m13 := 0
    m2 := 0, m6 := 0, m10 := 0, m14 := 0
    m3 := 0, m7 := 0, m11 := 0, m15 := 0 }

/-- raymath `MatrixMultiply(left, right)`, entry by entry from `raymath.h`.
In the standard column-vector convention this computes `right * left`
(see `MatrixMultiply_eq_std`). -/
def MatrixMultiply (left right : Matrix) : Matrix :=
  { m0 := left.m0*right.m0 + left.m1*right.m4 + left.m2*right.m8 + left.m3*right.m12
    m1 := left.m0*right.m1 + left.m1*right.m5 + left.m2*right.m9 + left.m3*right.m13
    m2 := left.m0*right.m2 + left.m1*right.m6 + left.m2*right.m10 + left.m3*right.m14
    m3 := left.m0*right.m3 + left.m1*right.m7 + left.m2*right.m11 + left.m3*right.m15
    m4 := left.m4*right.m0 + left.m5*right.m4 + left.m6*right.m8 + left.m7*right.m12
    m5 := left.m4*right.m1 + left.m5*right.m5 + left.m6*right.m9 + left.m7*right.m13
    m6 := left.m4*right.m2 + left.m5*right.m6 + left.m6*right.m10 + left.m7*right.m14
    m7 := left.m4*right.m3 + left.m5*right.m7 + left.m6*right.m11 + left.m7*right.m15
    m8 := left.m8*right.m0 + left.m9*right.m4 + left.m10*right.m8 + left.m11*right.m12
    m9 := left.m8*right.m1 + left.m9*right.m5 + left.m10*right.m9 + left.m11*right.m13
    m10 := left.m8*right.m2 + left.m9*right.m6 + left.m10*right.m10 + left.m11*right.m14
    m11 := left.m8*right.m3 + left.m9*right.m7 + left.m10*right.m11 + left.m11*right.m15
    m12 := left.m12*right.m0 + left.m13*right.m4 + left.m14*right.m8 + left.m15*right.m12
    m13 := left.m12*right.m1 + left.m13*right.m5 + left.m14*right.m9 + left.m15*right.m13
    m14 := left.m12*right.m2 + left.m13*right.m6 + left.m14*right.m10 + left.m15*right.m14
    m15 := left.m12*right.m3 + left.m13*right.m7 + left.m14*right.m11 + left.m15*right.m15 }

/-- Standard mathematical matrix product `A * B` in the column-vector
convention (entry `[r][c]` is the inner product of row `r` of `A` with
column `c` of `B`).  This is the product the spec's phrase
`local = T * R * S` refers to; it is only used to STATE properties and is
compared against the code's `MatrixMultiply`. -/
def matMulStd (A B : Matrix) : Matrix :=
  { m0 := A.m0*B.m0 + A.m4*B.m1 + A.m8*B.m2 + A.m12*B.m3
    m1 := A.m1*B.m0 + A.m5*B.m1 + A.m9*B.m2 + A.m13*B.m3
    m2 := A.m2*B.m0 + A.m6*B.m1 + A.m10*B.m2 + A.m14*B.m3
    m3 := A.m3*B.m0 + A.m7*B.m1 + A.m11*B.m2 + A.m15*B.m3
    m4 := A.m0*B.m4 + A.m4*B.m5 + A.m8*B.m6 + A.m12*B.m7
    m5 := A.m1*B.m4 + A.m5*B.m5 + A.m9*B.m6 + A.m13*B.m7
    m6 := A.m2*B.m4 + A.m6*B.m5 + A.m10*B.m6 + A.m14*B.m7
    m7 := A.m3*B.m4 + A.m7*B.m5 + A.m11*B.m6 + A.m15*B.m7
    m8 := A.m0*B.m8 + A.m4*B.m9 + A.m8*B.m10 + A.m12*B.m11
    m9 := A.m1*B.m8 + A.m5*B.m9 + A.m9*B.m10 + A.m13*B.m11
    m10 := A.m2*B.m8 + A.m6*B.m9 + A.m10*B.m10 + A.m14*B.m11
    m11 := A.m3*B.m8 + A.m7*B.m9 + A.m11*B.m10 + A.m15*B.m11
    m12 := A.m0*B.m12 + A.m4*B.m13 + A.m8*B.m14 + A.m12*B.m15
    m13 := A.m1*B.m12 + A.m5*B.m13 + A.m9*B.m14 + A.m13*B.m15
    m14 := A.m2*B.m12 + A.m6*B.m13 + A.m10*B.m14 + A.m14*B.m15
    m15 := A.m3*B.m12 + A.m7*B.m13 + A.m11*B.m14 + A.m15*B.m15 }

/-- raymath `MatrixScale(x, y, z)`: diagonal scale matrix. -/
def MatrixScale (x y z : ℚ) : Matrix :=
  { matZero with m0 := x, m5 := y, m10 := z, m15 := 1 }

/-- raymath `MatrixTranslate(x, y, z)`: identity with translation in the
fourth column. -/
def MatrixTranslate (x y z : ℚ) : Matrix :=
  { matZero with m0 := 1, m5 := 1, m10 := 1, m15 := 1, m12 := x, m13 := y, m14 := z }

/-- raymath `QuaternionToMatrix(q)`, entry by entry from `raymath.h`
(result starts from `MatrixIdentity()`). -/
def QuaternionToMatrix (q : Rotation) : Matrix :=
  let a2 := q.x*q.x
  let b2 := q.y*q.y
  let c2 := q.z*q.z
  let ac := q.x*q.z
  let ab := q.x*q.y
  let bc := q.y*q.z
  let ad := q.w*q.x
  let bd := q.w*q.y
  let cd := q.w*q.z
  { matZero with
    m0 := 1 - 2*(b2 + c2), m1 := 2*(ab + cd), m2 := 2*(ac - bd)
    m4 := 2*(ab - cd), m5 := 1 - 2*(a2 + c2), m6 := 2*(bc + ad)
    m8 := 2*(ac + bd), m9 := 2*(bc - ad), m10 := 1 - 2*(a2 + b2)
    m15 := 1 }

/-- raymath `Vector3Transform(v, mat)`: apply `mat` to `v` as a point
(column vector with homogeneous coordinate 1). -/
def Vector3Transform (v : Vector3) (mat : Matrix) : Vector3 :=
  { x := mat.m0*v.x + mat.m4*v.y + mat.m8*v.z + mat.m12
    y := mat.m1*v.x + mat.m5*v.y + mat.m9*v.z + mat.m13
    z := mat.m2*v.x + mat.m6*v.y + mat.m10*v.z + mat.m14 }

/-- raymath `Clamp(value, lo, hi)` (parameter names `min`/`max` in the C
source). -/
def Clamp (value lo hi : ℚ) : ℚ :=
  let result := if value < lo then lo else value
  if result > hi then hi else result

/-- Component `Transform` of `components/spatial.h` (registered and used
as `EcsTransform` in `core_systems.c`): cached world/local matrices plus
the dirty flag `needs_update`. -/
structure EcsTransform where
  world_matrix : Matrix
  local_matrix : Matrix
  needs_update : Bool
  deriving DecidableEq, Repr

/-- One entity row matched by `TransformSystem`'s query
`Position, Rotation, Scale, EcsTransform` (`core_systems.c`). -/
structure SpatialEntity where
  position : Vector3
  rotation : Rotation
  scale : Vector3
  transform : EcsTransform
  deriving DecidableEq, Repr

/-- Body of the per-entity loop of `TransformSystem` (`core_systems.c`
lines 97-116): if `needs_update`, build
`local = MatrixMultiply(MatrixMultiply(scale_matrix, rot_matrix), translate_matrix)`,
set `world = local` (the code does not traverse the parent hierarchy;
its comment reads "simplified - full implementation would traverse
hierarchy"), and clear the flag; otherwise leave the entity untouched. -/
def TransformSystemStep (e : SpatialEntity) : SpatialEntity :=
  if e.transform.needs_update then
    let rot_matrix := QuaternionToMatrix e.rotation
    let scale_matrix := MatrixScale e.scale.x e.scale.y e.scale.z
    let translate_matrix := MatrixTranslate e.position.x e.position.y e.position.z
    let local_matrix := MatrixMultiply (MatrixMultiply scale_matrix rot_matrix) translate_matrix
    { e with transform :=
        { local_matrix := local_matrix
          world_matrix := local_matrix
          needs_update := false } }
  else e

/-- System `TransformSystem` over its full query result (one frame's matched
entities, in query order). -/
def TransformSystem (es : List SpatialEntity) : List SpatialEntity :=
  es.map TransformSystemStep

/-- Component `BoundingSphere` of `components/spatial.h`. -/
structure BoundingSphere where
  radius : ℚ
  center_offset : Vector3
  deriving DecidableEq, Repr

/-- One entity row matched by `CullingSystem`'s query
`EcsTransform, BoundingSphere`, together with the presence bit of the
`Visible` tag that the system adds or removes on it. -/
structure CullEntity where
  transform : EcsTransform
  bounds : BoundingSphere
  visible : Bool
  deriving DecidableEq, Repr

/-- The visibility test of `CullingSystem` (`core_systems.c` lines
125-130): `Vector3Length(world_pos) < 200.0f`.  Since both sides are
nonnegative this is equivalent to comparing the squared length against
`200 * 200`, which is how the square root of the C `Vector3Length` is
embedded exactly over `ℚ`. -/
def cullVisible (p : Vector3) : Bool :=
  decide (p.x*p.x + p.y*p.y + p.z*p.z < 200*200)

/-- Body of the per-entity loop of `CullingSystem` (`core_systems.c`
lines 124-137): recompute the world-space bounding center and add the
`Visible` tag when the distance test passes, remove it otherwise.  The
system reads `transform` and `bounds` and writes only the tag. -/
def CullingStep (e : CullEntity) : CullEntity :=
  let world_pos := Vector3Transform e.bounds.center_offset e.transform.world_matrix
  { e with visible := cullVisible world_pos }

/-- System `CullingSystem` over its full query result. -/
def CullingSystem (es : List CullEntity) : List CullEntity :=
  es.map CullingStep

/-- Component `CameraController` of `components/spatial.h`. -/
structure CameraController where
  target : Vector3
  distance : ℚ
  pitch : ℚ
  yaw : ℚ
  move_speed : ℚ
  rotation_speed : ℚ
  mode : Int
  deriving DecidableEq, Repr

/-- Component `EditorState` of `components/spatial.h`.  `focused_entity`
is an `ecs_entity_t` (0 meaning none), embedded as `Nat`. -/
structure EditorState where
  current_mode : Int
  previous_mode : Int
  mode_transition : Bool
  focused_entity : Nat
  deriving DecidableEq, Repr

/-- The per-frame pointer/keyboard readings consumed by `InputSystem`
(`GetMouseDelta`, `IsMouseButtonDown`, `GetMouseWheelMove`,
`IsKeyPressed(KEY_TAB)`). -/
structure InputFrame where
  mouse_delta : Vector2
  left_mouse : Bool
  right_mouse : Bool
  wheel : ℚ
  tab_pressed : Bool
  deriving DecidableEq, Repr

/-- System `InputSystem` (`core_systems.c` lines 31-88), acting on the Editor
and MainCamera singletons (the early-return paths where a singleton is
missing leave all state unchanged and are not modelled).  In navigation
mode (`current_mode == 0`): a left drag adds the mouse delta to yaw and
pitch (pitch clamped to `[-89, 89]`), a right drag pans `target` to a new
point computed with the trigonometric raylib helpers (`GetCameraPosition`,
`Vector3Normalize`, `Vector3CrossProduct`) — that target value is passed
in as the parameter `panTarget`, since it is irrational-valued and only
ever written to the `target` field — and the wheel zoom updates
`distance`, clamped to `[1, 100]`.  Finally TAB cycles
`current_mode` modulo 3. -/
def InputSystem (panTarget : Vector3) (inp : InputFrame) (ed : EditorState)
    (cam : CameraController) : EditorState × CameraController :=
  let cam :=
    if ed.current_mode = 0 then
      let cam1 :=
        if inp.left_mouse then
          { cam with
            yaw := cam.yaw + inp.mouse_delta.x * cam.rotation_speed
            pitch := Clamp (cam.pitch - inp.mouse_delta.y * cam.rotation_speed) (-89) 89 }
        else cam
      let cam2 := if inp.right_mouse then { cam1 with target := panTarget } else cam1
      { cam2 with distance := Clamp (cam2.distance - inp.wheel * 2) 1 100 }
    else cam
  let ed :=
    if inp.tab_pressed then
      { ed with
        previous_mode := ed.current_mode
        current_mode := (ed.current_mode + 1) % 3
        mode_transition := true }
    else ed
  (ed, cam)

/-- The mutable world state touched by `PickingSystem`: the fresh-entity
counter behind `ecs_new` (flecs ids are nonzero), the set of live entity
ids, and the `EditorState` singleton. -/
structure PickState where
  nextId : Nat
  entities : List Nat
  editor : EditorState
  deriving DecidableEq, Repr

/-- flecs `ecs_new`: returns a fresh entity id and the world extended with it. -/
def ecs_new (s : PickState) : Nat × PickState :=
  (s.nextId, { s with nextId := s.nextId + 1, entities := s.entities ++ [s.nextId] })

/-- System `PickingSystem` (`core_systems.c` lines 178-230).  On a left-button
press while `current_mode == 0` the code computes the mouse ray but never
tests it against any entity: its comment reads "Simplified selection -
just select a dummy entity for now".  It calls `ecs_new`, and (the id
being nonzero) stores that fresh id into
`editor_state->focused_entity`.  With no press, or outside navigation
mode, nothing changes. -/
def PickingSystem (mousePressed : Bool) (s : PickState) : PickState :=
  if mousePressed = true ∧ s.editor.current_mode = 0 then
    let r := ecs_new s
    let closest_entity := r.1
    let s1 := r.2
    if closest_entity ≠ 0 then
      { s1 with editor := { s1.editor with focused_entity := closest_entity } }
    else s1
  else s

/-- Modelled from the spec (§4.4): decidable test that the ray
`origin + t * dir` meets the sphere `(center, radius)` at some `t > 0`.
With `a = dir·dir`, `b = 2 dir·(origin - center)`,
`c = (origin - center)·(origin - center) - radius²`, a positive real root
of `a t² + b t + c = 0` exists iff `c < 0` (origin inside the sphere,
roots of opposite sign) or the discriminant is nonnegative and `b < 0`
(both roots on the positive side).  Used only to certify, in concrete
picking scenarios, which candidate spheres the ray intersects. -/
def specRayHitsSphere (origin dir center : Vector3) (radius : ℚ) : Bool :=
  let ocx := origin.x - center.x
  let ocy := origin.y - center.y
  let ocz := origin.z - center.z
  let a := dir.x*dir.x + dir.y*dir.y + dir.z*dir.z
  let b := 2 * (dir.x*ocx + dir.y*ocy + dir.z*ocz)
  let c := ocx*ocx + ocy*ocy + ocz*ocz - radius*radius
  decide (c < 0 ∨ (b*b - 4*a*c ≥ 0 ∧ b < 0))

/-- Component `FileReference` of `components/spatial.h`: `char
filepath[512]`, an `int` line number and a `time_t` timestamp. -/
structure FileReference where
  filepath : List Char
  line_number : Int
  last_modified : Int
  deriving DecidableEq, Repr

/-- System `HotReloadSystem` (`core_systems.c` lines 164-175), body of the
per-entity loop: the code never consults the filesystem; it compares the
wall clock `time(NULL)` (parameter `now`) against `last_modified` and,
once more than one second has elapsed, overwrites `last_modified` with
the current wall-clock time. -/
def HotReloadStep (now : Int) (r : FileReference) : FileReference :=
  if now - r.last_modified > 1 then { r with last_modified := now } else r

/-- System `HotReloadSystem` over its full `FileReference` query result. -/
def HotReloadSystem (now : Int) (rs : List FileReference) : List FileReference :=
  rs.map (HotReloadStep now)

/-- raylib `Color` (r, g, b, a bytes). -/
structure Color where
  r : Nat
  g : Nat
  b : Nat
  a : Nat
  deriving DecidableEq, Repr

/-- raylib `WHITE`. -/
def WHITE : Color := ⟨255, 255, 255, 255⟩

/-- raylib `RED`. -/
def RED : Color := ⟨230, 41, 55, 255⟩

/-- raylib `BLUE`. -/
def BLUE : Color := ⟨0, 121, 241, 255⟩

/-- raylib `YELLOW`. -/
def YELLOW : Color := ⟨253, 249, 0, 255⟩

/-- Component `TextContent` of `components/spatial.h`: `char text[256]`
(embedded as a char list of at most 255 characters plus the terminator),
font size, color and billboard flag. -/
structure TextContent where
  text : List Char
  font_size : ℚ
  color : Color
  billboard_mode : Bool
  deriving DecidableEq, Repr

/-- Component `Selected` of `components/spatial.h`. -/
structure Selected where
  is_selected : Bool
  selection_id : Nat
  selection_time : ℚ
  deriving DecidableEq, Repr

/-- One store entity of the `ecs_complete` world: each registered
component kind is attached at most once (`Option`), and the presence-only
tags `Visible` / `NeedsReload` are presence bits. -/
structure StoreEntity where
  pos : Option Vector3 := none
  rot : Option Rotation := none
  scl : Option Vector3 := none
  transform : Option EcsTransform := none
  text : Option TextContent := none
  fileref : Option FileReference := none
  selected : Option Selected := none
  bounds : Option BoundingSphere := none
  visible : Bool := false
  needsReload : Bool := false
  deriving DecidableEq, Repr

/-- Replace the entity at index `i` (no-op when out of range), mirroring
an in-place component write on one entity of the store. -/
def updateAt {α : Type} : List α → Nat → (α → α) → List α
  | [], _, _ => []
  | e :: rest, 0, f => f e :: rest
  | e :: rest, n+1, f => e :: updateAt rest n f

/-- Observer `OnSelectionChanged` (`observers.c` lines 7-34), effect on the one
entity whose `Selected` component was set: if the entity also has
`TextContent`, recolor it `YELLOW`/billboard when selected, `WHITE`/flat
otherwise. -/
def OnSelectionChanged (e : StoreEntity) : StoreEntity :=
  match e.selected with
  | none => e
  | some s =>
    match e.text with
    | none => e
    | some t =>
      if s.is_selected then
        { e with text := some { t with color := YELLOW, billboard_mode := true } }
      else
        { e with text := some { t with color := WHITE, billboard_mode := false } }

/-- The inner query of `OnFileModified` (`observers.c` lines 50-63): add
the `NeedsReload` tag to every entity whose `FileReference.filepath`
equals the modified path. -/
def tagMatching (path : List Char) (w : List StoreEntity) : List StoreEntity :=
  w.map fun e =>
    match e.fileref with
    | some r => if r.filepath = path then { e with needsReload := true } else e
    | none => e

/-- Observer `OnFileModified` (`observers.c` lines 37-70), effect for the one
triggering entity at index `i`.  The filesystem is the map `fs` from a
path to its current modification time (`stat` returning `none` on
failure): if the entity has a `FileReference` whose path stats to an
mtime strictly greater than `last_modified`, every entity with a matching
path (the triggering one included) is tagged `NeedsReload`, then the
triggering entity's `last_modified` is overwritten with the new mtime;
otherwise nothing changes. -/
def fileModStep (fs : List Char → Option Int) (w : List StoreEntity) (i : Nat) :
    List StoreEntity :=
  match w.get? i with
  | none => w
  | some e =>
    match e.fileref with
    | none => w
    | some r =>
      match fs r.filepath with
      | none => w
      | some m =>
        if r.last_modified < m then
          updateAt (tagMatching r.filepath w) i fun e1 =>
            { e1 with fileref := some { r with last_modified := m } }
        else w

/-- Observer `OnFileModified` delivered to every entity holding a `FileReference`
(the observer's matched set), in store order. -/
def OnFileModified (fs : List Char → Option Int) (w : List StoreEntity) :
    List StoreEntity :=
  (List.range w.length).foldl (fileModStep fs) w

/-- The closed set of registered component kinds
(`RegisterSpatialComponents`, `components/spatial.c`). -/
inductive CompKind
  | position | rotation | scale | velocity | transform
  | textContent | fileReference | selected | boundingSphere
  | cameraController | editorState
  deriving DecidableEq, Repr

/-- flecs observer events used by `RegisterObservers`. -/
inductive EcsEvent
  | OnAdd | OnSet
  deriving DecidableEq, Repr

/-- The two observer callbacks of `observers.c`. -/
inductive ObserverCallback
  | selectionChanged | fileModified
  deriving DecidableEq, Repr

/-- One `ecs_observer_desc_t` registration: watched component kind,
triggering events, callback. -/
structure ObserverDesc where
  comp : CompKind
  events : List EcsEvent
  callback : ObserverCallback
  deriving DecidableEq, Repr

/-- Registration `RegisterObservers` (`observers.c` lines 73-88): exactly two
observers are registered, `Selected` on `EcsOnSet` running
`OnSelectionChanged`, and `FileReference` on `EcsOnAdd`/`EcsOnSet`
running `OnFileModified`.  No observer watches any Spatial-family kind. -/
def registeredObservers : List ObserverDesc :=
  [ { comp := .selected, events := [.OnSet], callback := .selectionChanged }
  , { comp := .fileReference, events := [.OnAdd, .OnSet], callback := .fileModified } ]

/-- Run one registered callback for the triggering entity at index `i`. -/
def runObserverAt (fs : List Char → Option Int) (cb : ObserverCallback)
    (w : List StoreEntity) (i : Nat) : List StoreEntity :=
  match cb with
  | .selectionChanged => updateAt w i OnSelectionChanged
  | .fileModified => fileModStep fs w i

/-- flecs event dispatch: after a component of kind `k` is written on the
entity at index `i`, every registered observer watching `k` for event
`ev` runs, in registration order. -/
def dispatchEvent (fs : List Char → Option Int) (ev : EcsEvent) (k : CompKind)
    (i : Nat) (w : List StoreEntity) : List StoreEntity :=
  (registeredObservers.filter fun o => decide (o.comp = k ∧ ev ∈ o.events)).foldl
    (fun w o => runObserverAt fs o.callback w i) w

/-- flecs `ecs_set(world, e, Position, p)`: attach/replace the component, then
deliver the `EcsOnSet` event. -/
def ecs_set_Position (fs : List Char → Option Int) (w : List StoreEntity)
    (i : Nat) (p : Vector3) : List StoreEntity :=
  dispatchEvent fs .OnSet .position i (updateAt w i fun e => { e with pos := some p })

/-- flecs `ecs_set(world, e, Rotation, q)` with `EcsOnSet` dispatch. -/
def ecs_set_Rotation (fs : List Char → Option Int) (w : List StoreEntity)
    (i : Nat) (q : Rotation) : List StoreEntity :=
  dispatchEvent fs .OnSet .rotation i (updateAt w i fun e => { e with rot := some q })

/-- flecs `ecs_set(world, e, Scale, s)` with `EcsOnSet` dispatch. -/
def ecs_set_Scale (fs : List Char → Option Int) (w : List StoreEntity)
    (i : Nat) (s : Vector3) : List StoreEntity :=
  dispatchEvent fs .OnSet .scale i (updateAt w i fun e => { e with scl := some s })

/-- The components attached to one line phantom by `CreatePhantomFromLine`
(`file_loader.c` lines 9-46), plus the `Visible` tag it adds. -/
structure Phantom where
  pos : Vector3
  rot : Rotation
  scl : Vector3
  transform : EcsTransform
  text : TextContent
  fileref : FileReference
  bounds : BoundingSphere
  visible : Bool
  deriving DecidableEq, Repr

/-- Function `CreatePhantomFromLine(world, line_text, line_number, filepath,
position, parent)` (`file_loader.c` lines 9-46): spatial components at
`position` with identity rotation and unit scale, a dirty zero Transform,
`TextContent` holding the line truncated by
`strncpy(text, line_text, 255)` (white, font 1.0, no billboard), a
`FileReference` for this line with the path truncated to 511 chars and
the current time, a default `BoundingSphere` `{0.5, (0,0,0)}`, and the
`Visible` tag. -/
def CreatePhantomFromLine (line_text : List Char) (line_number : Int)
    (filepath : List Char) (position : Vector3) (now : Int) : Phantom :=
  { pos := position
    rot := ⟨0, 0, 0, 1⟩
    scl := ⟨1, 1, 1⟩
    transform := { world_matrix := matZero, local_matrix := matZero, needs_update := true }
    text := { text := line_text.take 255, font_size := 1, color := WHITE, billboard_mode := false }
    fileref := { filepath := filepath.take 511, line_number := line_number, last_modified := now }
    bounds := { radius := 1/2, center_offset := ⟨0, 0, 0⟩ }
    visible := true }

/-- The placeholder entity created by `LoadFileAsPhantoms` when `fopen`
fails (`file_loader.c` lines 51-67). -/
structure PlaceholderEntity where
  name : List Char
  pos : Vector3
  rot : Rotation
  scl : Vector3
  transform : EcsTransform
  text : TextContent
  deriving DecidableEq, Repr

/-- The file container entity created by `LoadFileAsPhantoms` on success
(`file_loader.c` lines 74-96). -/
structure ContainerEntity where
  name : List Char
  pos : Vector3
  rot : Rotation
  scl : Vector3
  transform : EcsTransform
  fileref : FileReference
  text : TextContent
  deriving DecidableEq, Repr

/-- Everything `LoadFileAsPhantoms` creates in the world: at most one
placeholder (failure path), at most one container (success path), and the
line phantoms in creation order. -/
structure IngestResult where
  placeholder : Option PlaceholderEntity
  container : Option ContainerEntity
  phantoms : List Phantom
  deriving DecidableEq, Repr

/-- Computation `strrchr(filepath, '/')` then `+ 1` (`file_loader.c` lines 92-93):
the basename after the last slash, or the whole path when it has none. -/
def afterLastSlash (s : List Char) : List Char :=
  (s.reverse.takeWhile (fun c => c ≠ '/')).reverse

/-- The `while (fgets(...))` loop of `LoadFileAsPhantoms` (`file_loader.c`
lines 99-118): a blank line creates nothing but still increments
`line_number`; a non-empty line becomes a phantom at
`(start.x, start.y - line_number * 1.5, start.z)` carrying the current
`line_number`, after which the counter increments. -/
def phantomLoop (filepath : List Char) (start : Vector3) (now : Int) :
    List (List Char) → Int → List Phantom
  | [], _ => []
  | line :: rest, line_number =>
    if line.length = 0 then
      phantomLoop filepath start now rest (line_number + 1)
    else
      CreatePhantomFromLine line line_number filepath
          ⟨start.x, start.y - (line_number : ℚ) * (3/2), start.z⟩ now
        :: phantomLoop filepath start now rest (line_number + 1)

/-- Function `LoadFileAsPhantoms(world, filepath, start_position)` (`file_loader.c`
lines 49-122).  `content` is the result of `fopen` + `fgets`: `none` when
the file cannot be opened, otherwise the file's lines with trailing
newlines stripped (each assumed shorter than the 1024-byte read buffer).
On failure the function creates a single placeholder entity named after
the path, with an error `TextContent` produced by
`snprintf(text, 256, "FILE NOT FOUND: %s", filepath)` in `RED` at font
1.5, and returns; it never aborts.  On success it creates the container
entity (named after the path, `FileReference` with `line_number = 0` and
the current mtime, blue title text holding the basename) and one phantom
per non-empty line. -/
def LoadFileAsPhantoms (content : Option (List (List Char))) (filepath : List Char)
    (start_position : Vector3) (now : Int) : IngestResult :=
  match content with
  | none =>
    { placeholder := some
        { name := filepath
          pos := start_position
          rot := ⟨0, 0, 0, 1⟩
          scl := ⟨1, 1, 1⟩
          transform := { world_matrix := matZero, local_matrix := matZero, needs_update := true }
          text := { text := (("FILE NOT FOUND: ".toList) ++ filepath).take 255
                    font_size := 3/2, color := RED, billboard_mode := false } }
      container := none
      phantoms := [] }
  | some lines =>
    { placeholder := none
      container := some
        { name := filepath
          pos := start_position
          rot := ⟨0, 0, 0, 1⟩
          scl := ⟨1, 1, 1⟩
          transform := { world_matrix := matZero, local_matrix := matZero, needs_update := true }
          fileref := { filepath := filepath.take 511, line_number := 0, last_modified := now }
          text := { text := (afterLastSlash filepath).take 255
                    font_size := 2, color := BLUE, billboard_mode := false } }
      phantoms := phantomLoop filepath start_position now lines 0 }

/-- A filesystem in which no path can be statted. -/
def emptyFs : List Char → Option Int := fun _ => none

/-- Concrete store entity carrying a clean Transform, used to exercise
the Spatial `ecs_set` path. -/
def c1Entity : StoreEntity :=
  { transform := some { world_matrix := matZero, local_matrix := matZero, needs_update := false } }

/-- Concrete parent entity: position `(1,0,0)`, identity rotation, unit
scale, dirty Transform. -/
def c3Parent : SpatialEntity :=
  { position := ⟨1, 0, 0⟩, rotation := ⟨0, 0, 0, 1⟩, scale := ⟨1, 1, 1⟩
    transform := ⟨matZero, matZero, true⟩ }

/-- Concrete child entity of `c3Parent`: position `(0,1,0)`, identity
rotation, unit scale, dirty Transform. -/
def c3Child : SpatialEntity :=
  { position := ⟨0, 1, 0⟩, rotation := ⟨0, 0, 0, 1⟩, scale := ⟨1, 1, 1⟩
    transform := ⟨matZero, matZero, true⟩ }

/-- Concrete tracked entity whose `FileReference` last observed mtime 10
for path `f.txt`. -/
def c6Entity : StoreEntity :=
  { fileref := some { filepath := "f.txt".toList, line_number := 0, last_modified := 10 } }

/-- Concrete dirty spatial entity for the Transform-system witness. -/
def c8Entity : SpatialEntity :=
  { position := ⟨1, 2, 3⟩, rotation := ⟨0, 0, 0, 1⟩, scale := ⟨2, 2, 2⟩
    transform := ⟨matZero, matZero, true⟩ }

/-- Concrete picking ray origin (camera at the origin). -/
def pickRayOrigin : Vector3 := ⟨0, 0, 0⟩

/-- Concrete picking ray direction (along +x). -/
def pickRayDir : Vector3 := ⟨1, 0, 0⟩

/-- Concrete picking scenario with two candidate entities `7` and `8`
and a fresh-entity counter at 100. -/
def pickState4 : PickState :=
  { nextId := 100, entities := [7, 8]
    editor := { current_mode := 0, previous_mode := 0, mode_transition := false, focused_entity := 0 } }

/-- Concrete picking scenario with the single candidate entity `7`. -/
def pickState5 : PickState :=
  { nextId := 100, entities := [7]
    editor := { current_mode := 0, previous_mode := 0, mode_transition := false, focused_entity := 0 } }

/-- Concrete camera controller inside both clamped ranges. -/
def c10Cam : CameraController :=
  { target := ⟨0, 0, 0⟩, distance := 50, pitch := 0, yaw := 0
    move_speed := 1, rotation_speed := 1, mode := 0 }

/-- Concrete editor state in navigation mode. -/
def c10Ed : EditorState :=
  { current_mode := 0, previous_mode := 0, mode_transition := false, focused_entity := 0 }

/-- Concrete input frame: a hard left drag plus a large wheel zoom, both
of which would leave the clamped ranges without the clamps. -/
def c10Inp : InputFrame :=
  { mouse_delta := ⟨10, 200⟩, left_mouse := true, right_mouse := false
    wheel := 30, tab_pressed := false }

/- ------------------------------------------------------------------ -/
/- Helper lemmas                                                       -/
/- ------------------------------------------------------------------ -/

/-- raymath `MatrixMultiply(left, right)` is the standard product
`right * left` in the column-vector convention. -/
theorem MatrixMultiply_eq_std (left right : Matrix) :
    MatrixMultiply left right = matMulStd right left := by
  cases left; cases right
  simp only [MatrixMultiply, matMulStd, Matrix.mk.injEq]
  repeat' apply And.intro
  all_goals ring

/-- Function `Clamp` lands in `[lo, hi]` whenever `lo ≤ hi`. -/
theorem Clamp_bounds (value lo hi : ℚ) (h : lo ≤ hi) :
    lo ≤ Clamp value lo hi ∧ Clamp value lo hi ≤ hi := by
  dsimp only [Clamp]
  split_ifs <;> constructor <;> linarith

/-- Function `updateAt` commutes with a projection the update preserves. -/
theorem updateAt_map {α β : Type} (g : α → β) (f : α → α) (h : ∀ a, g (f a) = g a) :
    ∀ (w : List α) (i : Nat), (updateAt w i f).map g = w.map g
  | [], _ => rfl
  | e :: rest, 0 => by simp [updateAt, h]
  | e :: rest, n + 1 => by simp [updateAt, updateAt_map g f h rest n]

/-- Folding a step that fixes `w` at every index leaves `w` unchanged. -/
theorem foldl_fix {α β : Type} (step : α → β → α) (w : α) (h : ∀ i, step w i = w) :
    ∀ l : List β, l.foldl step w = w
  | [] => rfl
  | i :: l => by rw [List.foldl_cons, h i, foldl_fix step w h l]

/-- When no tracked path has a newer mtime on disk, one delivery of
`OnFileModified` to any entity index is a no-op. -/
theorem fileModStep_unchanged (fs : List Char → Option Int) (w : List StoreEntity)
    (H : ∀ e ∈ w, ∀ r, e.fileref = some r → ∀ m, fs r.filepath = some m →
      m ≤ r.last_modified)
    (i : Nat) : fileModStep fs w i = w := by
  unfold fileModStep
  split
  · rfl
  · rename_i e hw
    split
    · rfl
    · rename_i r hr
      split
      · rfl
      · rename_i m hm
        have hle : m ≤ r.last_modified := H e (List.get?_mem hw) r hr m hm
        rw [if_neg (by omega)]

/- ------------------------------------------------------------------ -/
/- Claim theorems                                                      -/
/- ------------------------------------------------------------------ -/

/-- C8: for every entity carrying Position, Rotation, Scale and a
Transform whose dirty flag is set, one run of the Transform system sets
the local matrix to `T * R * S` in the standard column-vector convention
(scale applied to vectors first) and clears the dirty flag; and after the
Transform phase runs once, every matched entity's dirty flag is clear. -/
theorem C8_transform_trs_and_clear (es : List SpatialEntity) (e : SpatialEntity)
    (hd : e.transform.needs_update = true) :
    ((TransformSystemStep e).transform.local_matrix
        = matMulStd (MatrixTranslate e.position.x e.position.y e.position.z)
            (matMulStd (QuaternionToMatrix e.rotation)
              (MatrixScale e.scale.x e.scale.y e.scale.z))
      ∧ (TransformSystemStep e).transform.needs_update = false)
    ∧ ∀ f ∈ TransformSystem es, f.transform.needs_update = false := by
  constructor
  · unfold TransformSystemStep
    rw [if_pos hd]
    dsimp only
    exact ⟨by rw [MatrixMultiply_eq_std, MatrixMultiply_eq_std], rfl⟩
  · intro f hf
    obtain ⟨e', _, rfl⟩ := List.mem_map.mp hf
    unfold TransformSystemStep
    by_cases h : e'.transform.needs_update = true
    · rw [if_pos h]
    · rw [if_neg h]
      simpa using h

/-- C8 witness: the theorem applied to the concrete dirty entity
`c8Entity`. -/
theorem C8_transform_witness :
    ((TransformSystemStep c8Entity).transform.local_matrix
        = matMulStd (MatrixTranslate c8Entity.position.x c8Entity.position.y c8Entity.position.z)
            (matMulStd (QuaternionToMatrix c8Entity.rotation)
              (MatrixScale c8Entity.scale.x c8Entity.scale.y c8Entity.scale.z))
      ∧ (TransformSystemStep c8Entity).transform.needs_update = false)
    ∧ ∀ f ∈ TransformSystem [c8Entity], f.transform.needs_update = false :=
  C8_transform_trs_and_clear [c8Entity] c8Entity (by decide)

/-- C9: culling is idempotent — with transforms, bounds and the (implicit
origin) camera fixed, running `CullingSystem` twice yields the same
`Visible` tag state on every entity as running it once. -/
theorem C9_culling_idempotent (es : List CullEntity) :
    CullingSystem (CullingSystem es) = CullingSystem es := by
  induction es with
  | nil => rfl
  | cons e rest ih =>
    show CullingStep (CullingStep e) :: CullingSystem (CullingSystem rest)
      = CullingStep e :: CullingSystem rest
    rw [ih]
    rfl

/-- C3: the claim `child.world = parent.world * child.local` fails on the
code: `TransformSystem` sets `world = local` for every entity (its
comment reads "simplified - full implementation would traverse
hierarchy").  At the concrete parent `c3Parent` (translation by `(1,0,0)`)
and child `c3Child` (translation by `(0,1,0)`), after the Transform phase
the child's world matrix equals its local matrix and differs from
`parent.world * child.local`. -/
theorem C3_world_ignores_parent :
    (TransformSystemStep c3Child).transform.world_matrix
      = (TransformSystemStep c3Child).transform.local_matrix
    ∧ (TransformSystemStep c3Child).transform.world_matrix
      ≠ matMulStd (TransformSystemStep c3Parent).transform.world_matrix
          (TransformSystemStep c3Child).transform.local_matrix := by
  constructor
  · rfl
  · intro h
    have h12 := congrArg Matrix.m12 h
    norm_num [TransformSystemStep, c3Child, c3Parent, QuaternionToMatrix,
      MatrixScale, MatrixTranslate, MatrixMultiply, matMulStd, matZero] at h12

/-- C4: the claim fails on the code: `PickingSystem` never performs a
ray-sphere test.  In the concrete scenario `pickState4` the camera ray
from the origin along `+x` analytically intersects exactly one candidate
bounding sphere (entity `7`, sphere centered `(5,0,0)` radius 1; entity
`8`'s sphere at `(0,10,0)` is missed), yet on a left press in navigation
mode the code creates the brand-new entity `100` and focuses it instead
of entity `7`. -/
theorem C4_picking_ignores_candidates :
    specRayHitsSphere pickRayOrigin pickRayDir ⟨5, 0, 0⟩ 1 = true
    ∧ specRayHitsSphere pickRayOrigin pickRayDir ⟨0, 10, 0⟩ 1 = false
    ∧ (PickingSystem true pickState4).editor.focused_entity = 100
    ∧ (100 ∉ pickState4.entities)
    ∧ (PickingSystem true pickState4).entities = pickState4.entities ++ [100] := by
  refine ⟨?_, ?_, by decide, by decide, by decide⟩
  · norm_num [specRayHitsSphere, pickRayOrigin, pickRayDir]
  · norm_num [specRayHitsSphere, pickRayOrigin, pickRayDir]

/-- C5: the claim fails on the code: even when the ray intersects no
candidate bounding sphere (in `pickState5` the only candidate sphere, at
`(0,10,0)`, is missed by the ray from the origin along `+x`), a left
press in navigation mode creates a new entity and moves the focused
entity onto it, so the Picking operation does change state. -/
theorem C5_picking_no_hit_still_mutates :
    specRayHitsSphere pickRayOrigin pickRayDir ⟨0, 10, 0⟩ 1 = false
    ∧ PickingSystem true pickState5 ≠ pickState5
    ∧ (PickingSystem true pickState5).editor.focused_entity
      ≠ pickState5.editor.focused_entity
    ∧ (PickingSystem true pickState5).entities.length
      = pickState5.entities.length + 1 := by
  refine ⟨?_, by decide, by decide, by decide⟩
  norm_num [specRayHitsSphere, pickRayOrigin, pickRayDir]

/-- C1: the claim fails on the code: no registered observer watches
Position, Rotation or Scale (`RegisterObservers` registers only
`Selected` and `FileReference` observers), so `ecs_set` of a Spatial
component runs no side effect.  On the concrete entity `c1Entity`, which
carries a clean Transform, setting Position `(1,2,3)` stores the position
but leaves `needs_update = false`. -/
theorem C1_counterexample :
    ((ecs_set_Position emptyFs [c1Entity] 0 ⟨1, 2, 3⟩).head?.bind StoreEntity.pos)
      = some ⟨1, 2, 3⟩
    ∧ ((ecs_set_Position emptyFs [c1Entity] 0 ⟨1, 2, 3⟩).head?.bind StoreEntity.transform)
      = some { world_matrix := matZero, local_matrix := matZero, needs_update := false } := by
  decide

/-- C1 (amended): a set of a Spatial-family component (Position, Rotation
or Scale) leaves every entity's Transform component — its dirty flag
included — unchanged, because no observer is registered for these kinds;
the dirty flag is only ever written where code sets the Transform
component itself explicitly. -/
theorem C1_set_spatial_leaves_transform (fs : List Char → Option Int)
    (w : List StoreEntity) (i : Nat) (p : Vector3) (q : Rotation) (s : Vector3) :
    (ecs_set_Position fs w i p).map StoreEntity.transform = w.map StoreEntity.transform
    ∧ (ecs_set_Rotation fs w i q).map StoreEntity.transform = w.map StoreEntity.transform
    ∧ (ecs_set_Scale fs w i s).map StoreEntity.transform = w.map StoreEntity.transform := by
  have h1 : ecs_set_Position fs w i p = updateAt w i fun e => { e with pos := some p } := rfl
  have h2 : ecs_set_Rotation fs w i q = updateAt w i fun e => { e with rot := some q } := rfl
  have h3 : ecs_set_Scale fs w i s = updateAt w i fun e => { e with scl := some s } := rfl
  rw [h1, h2, h3]
  exact ⟨updateAt_map StoreEntity.transform (fun e => { e with pos := some p }) (fun _ => rfl) w i,
    updateAt_map StoreEntity.transform (fun e => { e with rot := some q }) (fun _ => rfl) w i,
    updateAt_map StoreEntity.transform (fun e => { e with scl := some s }) (fun _ => rfl) w i⟩

/-- C6: the claim fails on the code for the periodic check:
`HotReloadSystem` never consults the filesystem, and overwrites
`last_modified` with the current wall-clock time as soon as more than one
second has elapsed.  Concretely, a reference last observed at time 10
becomes 13 at wall-clock time 13 although nothing on disk changed. -/
theorem C6_counterexample :
    HotReloadSystem 13 [{ filepath := "f.txt".toList, line_number := 0, last_modified := 10 }]
      = [{ filepath := "f.txt".toList, line_number := 0, last_modified := 13 }]
    ∧ HotReloadSystem 13 [{ filepath := "f.txt".toList, line_number := 0, last_modified := 10 }]
      ≠ [{ filepath := "f.txt".toList, line_number := 0, last_modified := 10 }] := by
  decide

/-- C6 (amended): for the observer-based check `OnFileModified`, when no
tracked path stats to a modification time newer than the recorded
`last_modified`, the store is left entirely unchanged: every
`FileReference.last_modified` keeps its value and no `NeedsReload` tag is
added to any entity. -/
theorem C6_observer_unchanged_fs (fs : List Char → Option Int) (w : List StoreEntity)
    (H : ∀ e ∈ w, ∀ r, e.fileref = some r → ∀ m, fs r.filepath = some m →
      m ≤ r.last_modified) :
    OnFileModified fs w = w := by
  unfold OnFileModified
  exact foldl_fix _ _ (fileModStep_unchanged fs w H) _

/-- C6 witness: the theorem applied to the tracked entity `c6Entity`
under a filesystem that still reports mtime 10 for every path. -/
theorem C6_observer_witness :
    OnFileModified (fun _ => some 10) [c6Entity] = [c6Entity] :=
  C6_observer_unchanged_fs _ _ (by
    intro e he r hr m hm
    have he' : e = c6Entity := List.mem_singleton.mp he
    subst he'
    simp only [c6Entity, Option.some.injEq] at hr hm
    subst hr
    show m ≤ (10 : Int)
    omega)

/-- C10: `InputSystem` preserves the camera-controller bounds invariant:
in navigation mode, if pitch was in `[-89, 89]` and distance in
`[1, 100]` before the run, both remain in range afterwards (any left-drag
rotation ends in a pitch clamp, and the wheel zoom ends in a distance
clamp). -/
theorem C10_input_nav_bounds (panTarget : Vector3) (inp : InputFrame)
    (ed : EditorState) (cam : CameraController)
    (hmode : ed.current_mode = 0)
    (hp1 : -89 ≤ cam.pitch) (hp2 : cam.pitch ≤ 89)
    (hd1 : 1 ≤ cam.distance) (hd2 : cam.distance ≤ 100) :
    (-89 ≤ ((InputSystem panTarget inp ed cam).2).pitch
      ∧ ((InputSystem panTarget inp ed cam).2).pitch ≤ 89)
    ∧ (1 ≤ ((InputSystem panTarget inp ed cam).2).distance
      ∧ ((InputSystem panTarget inp ed cam).2).distance ≤ 100) := by
  unfold InputSystem
  rw [if_pos hmode]
  dsimp only
  split_ifs <;> refine ⟨⟨?_, ?_⟩, ?_, ?_⟩ <;> (try dsimp only)
  · exact (Clamp_bounds _ (-89) 89 (by norm_num)).1
  · exact (Clamp_bounds _ (-89) 89 (by norm_num)).2
  · exact (Clamp_bounds _ 1 100 (by norm_num)).1
  · exact (Clamp_bounds _ 1 100 (by norm_num)).2
  · exact hp1
  · exact hp2
  · exact (Clamp_bounds _ 1 100 (by norm_num)).1
  · exact (Clamp_bounds _ 1 100 (by norm_num)).2
  · exact (Clamp_bounds _ (-89) 89 (by norm_num)).1
  · exact (Clamp_bounds _ (-89) 89 (by norm_num)).2
  · exact (Clamp_bounds _ 1 100 (by norm_num)).1
  · exact (Clamp_bounds _ 1 100 (by norm_num)).2
  · exact hp1
  · exact hp2
  · exact (Clamp_bounds _ 1 100 (by norm_num)).1
  · exact (Clamp_bounds _ 1 100 (by norm_num)).2

/-- C10 witness: the theorem applied to the concrete in-range camera
`c10Cam` and the violent drag/zoom frame `c10Inp`. -/
theorem C10_input_witness :
    (-89 ≤ ((InputSystem ⟨0, 0, 0⟩ c10Inp c10Ed c10Cam).2).pitch
      ∧ ((InputSystem ⟨0, 0, 0⟩ c10Inp c10Ed c10Cam).2).pitch ≤ 89)
    ∧ (1 ≤ ((InputSystem ⟨0, 0, 0⟩ c10Inp c10Ed c10Cam).2).distance
      ∧ ((InputSystem ⟨0, 0, 0⟩ c10Inp c10Ed c10Cam).2).distance ≤ 100) :=
  C10_input_nav_bounds ⟨0, 0, 0⟩ c10Inp c10Ed c10Cam rfl (by decide) (by decide)
    (by decide) (by decide)

/-- C2: the claim fails on the code in one value: ingesting lines
`["a", "", "b"]` from start `(0,0,0)` does create exactly the two
phantoms with line numbers 0 and 2, but the second phantom sits at
`y = 0 - 2 * 1.5 = -3`, not at `y = -1.5` as the claim states. -/
theorem C2_counterexample :
    ((((LoadFileAsPhantoms (some [['a'], [], ['b']]) "f.txt".toList ⟨0, 0, 0⟩ 42).phantoms.map
        fun p => p.fileref.line_number) = [0, 2])
      ∧ (((LoadFileAsPhantoms (some [['a'], [], ['b']]) "f.txt".toList ⟨0, 0, 0⟩ 42).phantoms.map
        fun p => p.pos.y) = [0, -3]))
    ∧ ¬ (((LoadFileAsPhantoms (some [['a'], [], ['b']]) "f.txt".toList ⟨0, 0, 0⟩ 42).phantoms.map
        fun p => p.pos.y) = [0, -(3/2)]) := by
  norm_num [LoadFileAsPhantoms, phantomLoop, CreatePhantomFromLine]

/-- C2 (amended): ingesting a file whose lines are `["a", "", "b"]` with
start position `(0,0,0)` and line spacing 1.5 produces exactly two
phantom entities: TextContent `"a"` at `y = 0` with line number 0, and
TextContent `"b"` at `y = -3` with line number 2 (the blank line creates
no entity but still advances the line counter, and the phantom sits at
`start.y - line_number * 1.5`). -/
theorem C2_ingest_lines :
    ((LoadFileAsPhantoms (some [['a'], [], ['b']]) "f.txt".toList ⟨0, 0, 0⟩ 42).phantoms.length = 2)
    ∧ (((LoadFileAsPhantoms (some [['a'], [], ['b']]) "f.txt".toList ⟨0, 0, 0⟩ 42).phantoms.map
        fun p => p.text.text) = [['a'], ['b']])
    ∧ (((LoadFileAsPhantoms (some [['a'], [], ['b']]) "f.txt".toList ⟨0, 0, 0⟩ 42).phantoms.map
        fun p => p.fileref.line_number) = [0, 2])
    ∧ (((LoadFileAsPhantoms (some [['a'], [], ['b']]) "f.txt".toList ⟨0, 0, 0⟩ 42).phantoms.map
        fun p => p.pos) = [⟨0, 0, 0⟩, ⟨0, -3, 0⟩])
    ∧ (LoadFileAsPhantoms (some [['a'], [], ['b']]) "f.txt".toList ⟨0, 0, 0⟩ 42).placeholder
        = none := by
  norm_num [LoadFileAsPhantoms, phantomLoop, CreatePhantomFromLine, Vector3.mk.injEq]

/-- C7 (amended): ingesting a path that cannot be opened creates exactly
one placeholder entity — no container and no phantoms — whose TextContent
is `"FILE NOT FOUND: "` followed by the path, truncated to the 255-char
text capacity (so it contains the full path string whenever the path is
at most 239 chars), rendered in error color `RED`; ingestion returns
normally (the C function returns `void`, so the entity is not a return
value). -/
theorem C7_missing_file_placeholder (path : List Char) (start : Vector3) (now : Int) :
    (∃ ph, (LoadFileAsPhantoms none path start now).placeholder = some ph
        ∧ ph.text.text = ("FILE NOT FOUND: ".toList ++ path).take 255
        ∧ ph.text.color = RED
        ∧ (path.length ≤ 239 → ∃ pre post, ph.text.text = pre ++ path ++ post))
    ∧ (LoadFileAsPhantoms none path start now).container = none
    ∧ (LoadFileAsPhantoms none path start now).phantoms = [] := by
  refine ⟨⟨_, rfl, rfl, rfl, ?_⟩, rfl, rfl⟩
  intro hlen
  refine ⟨"FILE NOT FOUND: ".toList, [], ?_⟩
  rw [List.append_nil]
  apply List.take_of_length_le
  rw [List.length_append]
  have h16 : ("FILE NOT FOUND: ".toList).length = 16 := rfl
  omega

/-- C7 witness: the theorem applied to the path `missing.txt`, whose
placeholder text contains the path. -/
theorem C7_missing_file_witness :
    ∃ pre post,
      ((LoadFileAsPhantoms none "missing.txt".toList ⟨0, 0, 0⟩ 0).placeholder.map
        fun ph => ph.text.text) = some (pre ++ "missing.txt".toList ++ post) := by
  obtain ⟨⟨ph, hph, htext, hcol, hcontain⟩, hcont, hphs⟩ :=
    C7_missing_file_placeholder "missing.txt".toList ⟨0, 0, 0⟩ 0
  obtain ⟨pre, post, h⟩ := hcontain (by decide)
  exact ⟨pre, post, by rw [hph]; exact congrArg some h⟩

/-- C7: the claim as stated fails for paths longer than the TextContent
capacity: for a path of 300 characters the placeholder's text buffer
holds only the first 255 characters of `"FILE NOT FOUND: " ++ path`
(`snprintf` truncates), so the TextContent does not contain the path
string. -/
theorem C7_counterexample :
    ¬ ∃ pre post,
      ((LoadFileAsPhantoms none (List.replicate 300 'a') ⟨0, 0, 0⟩ 0).placeholder.map
        fun ph => ph.text.text) = some (pre ++ List.replicate 300 'a' ++ post) := by
  rintro ⟨pre, post, h⟩
  simp only [LoadFileAsPhantoms, Option.map_some', Option.some.injEq] at h
  have hlen := congrArg List.length h
  have h16 : ("FILE NOT FOUND: ".toList).length = 16 := rfl
  simp only [List.length_take, List.length_append, List.length_replicate, h16] at hlen
  omega

end PeviECS
